import Mathlib

/-!
Verification of the Ganja-TUI growth-simulation core.

This file gives a shallow embedding, in Lean 4, of the plant domain model
(`src/domain/plant.rs`, `src/domain/harvest.rs`, `src/domain/genetics.rs`),
the deterministic plant-structure generator (`src/ascii/art.rs`) and the
ASCII renderer (`src/ascii/art.rs`), together with theorems settling the
specification claims about them.

Modelling conventions:
* Rust `u32`/`u64`/`usize` values are `Nat`, with explicit `% 2 ^ 64`
  wrapping where the source relies on `wrapping_mul`/`wrapping_add`.
* Rust `i8` values are `Int`, with an explicit `wrap8` (mod-256 wrap into
  `[-128, 127]`) at every operation where the source's `i8` arithmetic can
  wrap in a release build, and saturating/wrapping casts spelled out.
* Rust `f32` quantities are embedded as `ℚ`.  Every place where the `f32`
  rounding of the source could differ from the exact rational value is
  marked with a comment; none of the claims proved below depends on such a
  boundary case.
* Rust `Vec` is `List`; `Vec::push` appends on the right.
-/

namespace GanjaTui

/-! ## Domain enums (src/domain/plant.rs) -/

/-- Growth stages of the plant (`GrowthStage`). -/
inductive GrowthStage where
  | Seed
  | Germination
  | Seedling
  | Vegetative
  | PreFlower
  | Flowering
  | ReadyToHarvest
deriving DecidableEq, Repr, Inhabited

/-- Light cycle settings (`LightCycle`). -/
inductive LightCycle where
  | Veg18_6
  | Flower12_12
deriving DecidableEq, Repr, Inhabited

/-- Plant health status (`HealthStatus`). -/
inductive HealthStatus where
  | Excellent
  | Good
  | Fair
  | Poor
  | Critical
deriving DecidableEq, Repr, Inhabited

/-- Stress event severity (`StressSeverity`). -/
inductive StressSeverity where
  | Minor
  | Moderate
  | Severe
deriving DecidableEq, Repr, Inhabited

/-- Cause of stress (`StressCause`). -/
inductive StressCause where
  | LowWater
  | HighWater
  | LowNutrients
  | NutrientBurn
  | WrongLightCycle
deriving DecidableEq, Repr, Inhabited

/-- A stress event recorded in care history (`StressEvent`). -/
structure StressEvent where
  day : Nat
  severity : StressSeverity
  cause : StressCause
deriving DecidableEq, Repr, Inhabited

/-- History of care quality (`CareHistory`).  The deprecated percentage
fields `water_optimal_percentage` / `nutrient_optimal_percentage` are kept
to mirror the source layout though no claim reads them. -/
structure CareHistory where
  total_hours : ℚ
  total_optimal_water_hours : ℚ
  total_optimal_nutrient_hours : ℚ
  water_optimal_percentage : ℚ
  nutrient_optimal_percentage : ℚ
  light_cycle_correct : Bool
  stress_events : List StressEvent
deriving DecidableEq, Repr

/-- `CareHistory::default()`. -/
def defaultCareHistory : CareHistory :=
  { total_hours := 0
    total_optimal_water_hours := 0
    total_optimal_nutrient_hours := 0
    water_optimal_percentage := 100
    nutrient_optimal_percentage := 100
    light_cycle_correct := true
    stress_events := [] }

/-- `CareHistory::calculate_water_percentage`. -/
def CareHistory.calculate_water_percentage (h : CareHistory) : ℚ :=
  if h.total_hours = 0 then 100
  else h.total_optimal_water_hours / h.total_hours * 100

/-- `CareHistory::calculate_nutrient_percentage`. -/
def CareHistory.calculate_nutrient_percentage (h : CareHistory) : ℚ :=
  if h.total_hours = 0 then 100
  else h.total_optimal_nutrient_hours / h.total_hours * 100

/-- `CareHistory::has_recent_stress`: scans the 10 most recent events
(`iter().rev().take(10)`) for one of the same cause whose day is at least
`current_day.saturating_sub(5)` (Nat subtraction is saturating). -/
def CareHistory.has_recent_stress (h : CareHistory) (cause : StressCause)
    (current_day : Nat) : Bool :=
  (h.stress_events.reverse.take 10).any
    (fun e => e.cause == cause && decide (current_day - 5 ≤ e.day))

/-! ## Genetics (src/domain/genetics.rs)

`Genetics::random()` draws from the process RNG (`rand::thread_rng`) and
the strain database file; it is not part of any claim and is not embedded.
Only the trait record itself is. -/

/-- Strain information from the database (`StrainInfo`). -/
structure StrainInfo where
  name : String
  strain_type : String
  genetics : String
  thc_min : ℚ
  thc_max : ℚ
  cbd_min : ℚ
  cbd_max : ℚ
  flowering_time : Nat
  difficulty : String
  yield_potential : String
  dominant_terpenes : List String
  aroma : List String
  effects : List String
  height : String
  phenotype : String
deriving DecidableEq, Repr

/-- Genetic traits (`Genetics`). -/
structure Genetics where
  yield_potential : ℚ
  growth_rate : ℚ
  resilience : ℚ
  quality_ceiling : ℚ
  strain_info : Option StrainInfo
  thc_percent : ℚ
  cbd_percent : ℚ
deriving DecidableEq, Repr

/-! ## Plant (src/domain/plant.rs)

The `id : Uuid` and `planted_at : DateTime<Utc>` fields are wall-clock /
process-identity data; `id` is carried as an opaque `Nat` (it is the
renderer's seed), `planted_at` is omitted (no claim reads it). -/

/-- The main plant structure (`Plant`). -/
structure Plant where
  id : Nat
  strain_name : String
  stage : GrowthStage
  days_alive : Nat
  total_hours_elapsed : ℚ
  water_level : ℚ
  nutrient_level : ℚ
  light_cycle : LightCycle
  health : HealthStatus
  genetics : Genetics
  care_history : CareHistory
  co2_level : ℚ
  light_absorption : ℚ
  temperature : ℚ
  humidity : ℚ
  root_development : ℚ
  canopy_density : ℚ
deriving DecidableEq, Repr

/-- `Plant::calculate_stage`: the Rust `match days { 1..=10 => …, 11..=40
=> …, 41..=48 => …, 49..=85 => …, _ => ReadyToHarvest }`. -/
def Plant.calculate_stage (days : Nat) : GrowthStage :=
  if 1 ≤ days ∧ days ≤ 10 then .Seedling
  else if 11 ≤ days ∧ days ≤ 40 then .Vegetative
  else if 41 ≤ days ∧ days ≤ 48 then .PreFlower
  else if 49 ≤ days ∧ days ≤ 85 then .Flowering
  else .ReadyToHarvest

/-- `Plant::calculate_health`. -/
def Plant.calculate_health (water nutrients : ℚ) : HealthStatus :=
  let water_optimal := 40 ≤ water ∧ water ≤ 80
  let nutrient_optimal := 50 ≤ nutrients ∧ nutrients ≤ 80
  let water_critical := water < 10 ∨ 95 < water
  let nutrient_critical := nutrients < 20 ∨ 95 < nutrients
  if water_critical ∨ nutrient_critical then .Critical
  else if ¬water_optimal ∧ ¬nutrient_optimal then .Poor
  else if ¬water_optimal ∨ ¬nutrient_optimal then .Fair
  else if 50 ≤ water ∧ water ≤ 70 ∧ 60 ≤ nutrients ∧ nutrients ≤ 75 then .Excellent
  else .Good

/-! ## Harvest (src/domain/harvest.rs)

`completed_at : DateTime<Utc>` (`Utc::now()`) is wall clock and omitted. -/

/-- Result of harvesting a plant (`HarvestResult`). -/
structure HarvestResult where
  strain_name : String
  harvest_day : Nat
  weight_grams : ℚ
  quality_score : ℚ
  thc_percent : ℚ
  cbd_percent : ℚ
deriving DecidableEq, Repr

/-- `HarvestResult::from_plant`.  `f32::clamp(0.0, 100.0)` is
`min (max · 0) 100`; `.max(0.7)` / `.min(0.3)` as in the source. -/
def HarvestResult.from_plant (p : Plant) : HarvestResult :=
  let base_yield := p.genetics.yield_potential
  let water_pct := p.care_history.calculate_water_percentage
  let nutrient_pct := p.care_history.calculate_nutrient_percentage
  let care_quality := max ((water_pct + nutrient_pct) / 200) (7 / 10)
  let stress_count := p.care_history.stress_events.length
  let stress_penalty := min ((stress_count : ℚ) * (2 / 100)) (3 / 10)
  let weight_grams := base_yield * care_quality * (1 - stress_penalty)
  let quality_score := min (max (care_quality * 100 * (1 - stress_penalty)) 0) 100
  let cannabinoid_multiplier := 7 / 10 + quality_score / 100 * (3 / 10)
  { strain_name := p.strain_name
    harvest_day := p.days_alive
    weight_grams := weight_grams
    quality_score := quality_score
    thc_percent := p.genetics.thc_percent * cannabinoid_multiplier
    cbd_percent := p.genetics.cbd_percent * cannabinoid_multiplier }

/-! ## Tick fragments (src/app.rs, `App::update_time`)

Only the fragments of `update_time` that the claims are about are embedded:
the recomputation of `days_alive` from `total_hours_elapsed` (line 110) and
the stress-event detection block (lines 220–250).  The remaining body
(resource drains, environment metrics, the `sin`-based temperature wobble)
is not read by any claim. -/

/-- Line 110: `plant.days_alive = (plant.total_hours_elapsed / 24.0) as u32`.
The `f32 → u32` cast truncates toward zero and saturates below at 0, which
for a nonnegative quantity is `Int.toNat ∘ Int.floor`. -/
def daysAliveFromHours (total_hours_elapsed : ℚ) : Nat :=
  (⌊total_hours_elapsed / 24⌋).toNat

/-- Lines 220–226: `if plant.water_level < 20.0 && !has_recent_stress(LowWater, …)`
append a Moderate LowWater event (`Vec::push` appends on the right). -/
def recordStress1 (water_level : ℚ) (days_alive : Nat) (ch : CareHistory) : CareHistory :=
  if water_level < 20 ∧ ch.has_recent_stress .LowWater days_alive = false then
    { ch with stress_events :=
        ch.stress_events ++ [⟨days_alive, .Moderate, .LowWater⟩] }
  else ch

/-- Lines 228–234: water above 90 appends a Moderate HighWater event. -/
def recordStress2 (water_level : ℚ) (days_alive : Nat) (ch : CareHistory) : CareHistory :=
  if 90 < water_level ∧ ch.has_recent_stress .HighWater days_alive = false then
    { ch with stress_events :=
        ch.stress_events ++ [⟨days_alive, .Moderate, .HighWater⟩] }
  else ch

/-- Lines 236–242: nutrients below 30 append a Moderate LowNutrients event. -/
def recordStress3 (nutrient_level : ℚ) (days_alive : Nat) (ch : CareHistory) : CareHistory :=
  if nutrient_level < 30 ∧ ch.has_recent_stress .LowNutrients days_alive = false then
    { ch with stress_events :=
        ch.stress_events ++ [⟨days_alive, .Moderate, .LowNutrients⟩] }
  else ch

/-- Lines 244–250: nutrients above 90 append a Severe NutrientBurn event. -/
def recordStress4 (nutrient_level : ℚ) (days_alive : Nat) (ch : CareHistory) : CareHistory :=
  if 90 < nutrient_level ∧ ch.has_recent_stress .NutrientBurn days_alive = false then
    { ch with stress_events :=
        ch.stress_events ++ [⟨days_alive, .Severe, .NutrientBurn⟩] }
  else ch

/-- Lines 217–250: detect and record stress events; the four checks run in
source order on the successively updated history. -/
def recordStressEvents (water_level nutrient_level : ℚ) (days_alive : Nat)
    (ch : CareHistory) : CareHistory :=
  recordStress4 nutrient_level days_alive
    (recordStress3 nutrient_level days_alive
      (recordStress2 water_level days_alive
        (recordStress1 water_level days_alive ch)))

/-! ## Deterministic sequence generator (src/ascii/art.rs, `SimpleRng`)

`state` is a `u64`; `wrapping_mul`/`wrapping_add` are explicit `% 2 ^ 64`.
`next` returns `(state / 65536) % 32768`, so every draw is `< 32768`. -/

/-- `SimpleRng`. -/
structure SimpleRng where
  state : Nat
deriving DecidableEq, Repr

/-- `SimpleRng::new(seed)`: `state = seed.wrapping_add(1)`. -/
def SimpleRng.new (seed : Nat) : SimpleRng :=
  ⟨(seed + 1) % 2 ^ 64⟩

/-- `SimpleRng::next()`: updates the state and returns the drawn value
together with the updated generator. -/
def SimpleRng.next (r : SimpleRng) : Nat × SimpleRng :=
  let s := (r.state * 1103515245 + 12345) % 2 ^ 64
  (s / 65536 % 32768, ⟨s⟩)

/-! ## Plant structure (src/ascii/art.rs) -/

/-- Phenotype (`Phenotype`). -/
inductive Phenotype where
  | Tall
  | Bushy
  | Balanced
deriving DecidableEq, Repr, Inhabited

/-- A branch of the generated plant (`Branch`).  `direction` and `curve`
are `i8` values, `level`/`max_length`/`thickness` are `usize`/`u8`. -/
structure Branch where
  level : Nat
  direction : Int
  growth_start_day : Nat
  max_length : Nat
  thickness : Nat
  is_secondary : Bool
  parent_index : Option Nat
  curve : Int
  can_bifurcate : Bool
  bifurcation_day : Nat
deriving DecidableEq, Repr, Inhabited

/-- A main-trunk bifurcation (`TrunkSplit`); `angle` is an `i8`. -/
structure TrunkSplit where
  split_day : Nat
  split_level : Nat
  angle : Int
deriving DecidableEq, Repr, Inhabited

/-- Procedurally generated plant structure (`PlantStructure`). -/
structure PlantStructure where
  branches : List Branch
  seed : Nat
  phenotype : Phenotype
  branch_density : ℚ
  foliage_density : ℚ
  trunk_splits : List TrunkSplit
  max_height : Nat
  growth_rate : ℚ
deriving DecidableEq, Repr

/-! ### `PlantStructure::generate` (src/ascii/art.rs lines 71–252)

The source draws from one `SimpleRng` in a fixed order; the embedding
threads the generator explicitly through the same sequence of draws.
Phenotype-dependent constants are factored into helper functions of the
phenotype and, where the source draws inside the match arm, of the drawn
value. -/

/-- `match rng.next() % 3 { 0 => Tall, 1 => Bushy, _ => Balanced }`. -/
def phenotypeOf (r : Nat) : Phenotype :=
  if r % 3 == 0 then .Tall else if r % 3 == 1 then .Bushy else .Balanced

/-- Phenotype constants: `branch_density` (0.6 / 1.0 / 0.8). -/
def branchDensityOf (ph : Phenotype) : ℚ :=
  match ph with
  | .Tall => 6 / 10
  | .Bushy => 1
  | .Balanced => 8 / 10

/-- Phenotype constants: `foliage_density` (0.4 / 0.9 / 0.7). -/
def foliageDensityOf (ph : Phenotype) : ℚ :=
  match ph with
  | .Tall => 4 / 10
  | .Bushy => 9 / 10
  | .Balanced => 7 / 10

/-- `max_height`: `20/12/16 + (rng.next() % 5) as usize`. -/
def maxHeightOf (ph : Phenotype) (r : Nat) : Nat :=
  match ph with
  | .Tall => 20 + r % 5
  | .Bushy => 12 + r % 5
  | .Balanced => 16 + r % 5

/-- Phenotype constants: `growth_rate` (0.25 / 0.22 / 0.23). -/
def growthRateOf (ph : Phenotype) : ℚ :=
  match ph with
  | .Tall => 25 / 100
  | .Bushy => 22 / 100
  | .Balanced => 23 / 100

/-- `num_primary`: `15 + r % 10` / `25 + r % 15` / `20 + r % 12`. -/
def numPrimaryOf (ph : Phenotype) (r : Nat) : Nat :=
  match ph with
  | .Tall => 15 + r % 10
  | .Bushy => 25 + r % 15
  | .Balanced => 20 + r % 12

/-- The source computes `base_day + ((max_height - level) as f32 *
days_per_level) as u32` with `days_per_level ∈ {1.2, 0.8, 1.0}`.  The f32
constants `1.2f32`/`0.8f32` round *up* from the decimal value, and
`max_height - level ≤ 23`, so the truncated product equals the exact
rational floor `6*m/5` / `4*m/5` / `m` (the product sits at least 0.2
below the next integer except at exact multiples, far more than the f32
error there). -/
def levelDayOf (ph : Phenotype) (max_height level : Nat) : Nat :=
  match ph with
  | .Tall => 4 + 6 * (max_height - level) / 5
  | .Bushy => 4 + 4 * (max_height - level) / 5
  | .Balanced => 4 + (max_height - level)

/-- One iteration of the primary-branch loop (lines 98–161), consuming the
generator in the source's draw order. -/
def genPrimaryBranch (ph : Phenotype) (max_height : Nat) (rng : SimpleRng) :
    Branch × SimpleRng :=
  let d1 := rng.next
  let level :=
    match ph with
    | .Tall => 1 + d1.1 % (max_height - 1)
    | .Bushy => 2 + d1.1 % (max (max_height - 2) 1)
    | .Balanced => 2 + d1.1 % (max (max_height - 2) 1)
  let level_day := levelDayOf ph max_height level
  let d2 := d1.2.next
  let growth_start_day := level_day + d2.1 % 3
  let d3 := d2.2.next
  let direction : Int := if d3.1 % 2 == 0 then -1 else 1
  let d4 := d3.2.next
  let max_length :=
    match ph with
    | .Tall => 6 + d4.1 % 8
    | .Bushy => 8 + d4.1 % 6
    | .Balanced => 6 + d4.1 % 8
  -- thickness: Tall draws nothing, Bushy/Balanced draw once
  let dth :=
    match ph with
    | .Tall => ((1 : Nat), d4.2)
    | .Bushy => let d := d4.2.next; (if d.1 % 2 == 0 then 2 else 1, d.2)
    | .Balanced => let d := d4.2.next; (if d.1 % 3 == 0 then 2 else 1, d.2)
  let thickness := dth.1
  let d5 := dth.2.next
  let dcv :=
    if d5.1 % 3 == 0 then
      let d := d5.2.next
      ((if d.1 % 2 == 0 then (-1 : Int) else 1), d.2)
    else ((0 : Int), d5.2)
  let curve := dcv.1
  let d6 := dcv.2.next
  let can_bifurcate := d6.1 % 3 == 0
  let dbf :=
    if can_bifurcate then
      let d := d6.2.next
      (growth_start_day + 8 + d.1 % 8, d.2)
    else ((999 : Nat), d6.2)
  (⟨level, direction, growth_start_day, max_length, thickness,
    false, none, curve, can_bifurcate, dbf.1⟩, dbf.2)

/-- The primary-branch loop: `n` pushes in order. -/
def genPrimaryBranches (ph : Phenotype) (max_height : Nat) :
    Nat → SimpleRng → List Branch × SimpleRng
  | 0, rng => ([], rng)
  | n + 1, rng =>
    let b := genPrimaryBranch ph max_height rng
    let rest := genPrimaryBranches ph max_height n b.2
    (b.1 :: rest.1, rest.2)

/-- `num_secondary`: `(num_primary as f32 * 0.5/0.8/0.6) as usize`.
`0.5f32` is exact and `0.8f32`/`0.6f32` round up from the decimal value,
with `num_primary ≤ 40`, so the truncation equals the exact rational floor
`n/2` / `4*n/5` / `3*n/5`. -/
def numSecondaryOf (ph : Phenotype) (num_primary : Nat) : Nat :=
  match ph with
  | .Tall => num_primary / 2
  | .Bushy => 4 * num_primary / 5
  | .Balanced => 3 * num_primary / 5

/-- One iteration of the secondary-branch loop (lines 171–220).
`&branches[parent_idx]` is in bounds because `parent_idx` is reduced mod
`primary_count`; `getD` with the default branch stands for that indexing. -/
def genSecondaryBranch (primaries : List Branch) (max_height : Nat)
    (rng : SimpleRng) : Branch × SimpleRng :=
  let d1 := rng.next
  let parent_idx := d1.1 % primaries.length
  let parent := primaries.getD parent_idx default
  let d2 := d1.2.next
  let growth_start_day := parent.growth_start_day + 5 + d2.1 % 5
  let d3 := d2.2.next
  let level_offset : Int := (d3.1 % 3 : Nat) - 1
  let level : Nat :=
    (min (max ((parent.level : Int) + level_offset) 1) ((max_height : Int) - 1)).toNat
  let d4 := d3.2.next
  let direction : Int := if d4.1 % 3 == 0 then parent.direction else -parent.direction
  let d5 := d4.2.next
  let max_length := 4 + d5.1 % 6
  let thickness := 1
  let d6 := d5.2.next
  let dcv :=
    if d6.1 % 2 == 0 then
      let d := d6.2.next
      ((if d.1 % 2 == 0 then (-1 : Int) else 1), d.2)
    else ((0 : Int), d6.2)
  let curve := dcv.1
  let d7 := dcv.2.next
  let can_bifurcate := d7.1 % 5 == 0
  let dbf :=
    if can_bifurcate then
      let d := d7.2.next
      (growth_start_day + 10 + d.1 % 8, d.2)
    else ((999 : Nat), d7.2)
  (⟨level, direction, growth_start_day, max_length, thickness,
    true, some parent_idx, curve, can_bifurcate, dbf.1⟩, dbf.2)

/-- The secondary-branch loop: `n` pushes in order. -/
def genSecondaryBranches (primaries : List Branch) (max_height : Nat) :
    Nat → SimpleRng → List Branch × SimpleRng
  | 0, rng => ([], rng)
  | n + 1, rng =>
    let b := genSecondaryBranch primaries max_height rng
    let rest := genSecondaryBranches primaries max_height n b.2
    (b.1 :: rest.1, rest.2)

/-- `num_splits` (lines 224–228). -/
def numSplitsOf (ph : Phenotype) (r : Nat) : Nat :=
  match ph with
  | .Tall => if r % 3 == 0 then 1 else 0
  | .Bushy => if r % 2 == 0 then 1 else 2
  | .Balanced => if r % 4 == 0 then 1 else 0

/-- One trunk split (lines 230–240): `split_day = 20 + r % 30`,
`split_level = 4 + r % 4`, `angle = (r % 5) as i8 - 2`. -/
def genTrunkSplit (rng : SimpleRng) : TrunkSplit × SimpleRng :=
  let d1 := rng.next
  let split_day := 20 + d1.1 % 30
  let d2 := d1.2.next
  let split_level := 4 + d2.1 % 4
  let d3 := d2.2.next
  let angle : Int := (d3.1 % 5 : Nat) - 2
  (⟨split_day, split_level, angle⟩, d3.2)

/-- The trunk-split loop: `n` pushes in order. -/
def genTrunkSplits : Nat → SimpleRng → List TrunkSplit × SimpleRng
  | 0, rng => ([], rng)
  | n + 1, rng =>
    let s := genTrunkSplit rng
    let rest := genTrunkSplits n s.2
    (s.1 :: rest.1, rest.2)

/-- `PlantStructure::generate(seed)`: the full generation pipeline, a pure
function of the seed (the only entropy source is the seed-initialised
`SimpleRng`). -/
def PlantStructure.generate (seed : Nat) : PlantStructure :=
  let rng0 := SimpleRng.new seed
  let dPh := rng0.next
  let phenotype := phenotypeOf dPh.1
  let dH := dPh.2.next
  let max_height := maxHeightOf phenotype dH.1
  let dN := dH.2.next
  let num_primary := numPrimaryOf phenotype dN.1
  let prim := genPrimaryBranches phenotype max_height num_primary dN.2
  let num_secondary := numSecondaryOf phenotype num_primary
  let sec := genSecondaryBranches prim.1 max_height num_secondary prim.2
  let dS := sec.2.next
  let num_splits := numSplitsOf phenotype dS.1
  let splits := genTrunkSplits num_splits dS.2
  { branches := prim.1 ++ sec.1
    seed := seed
    phenotype := phenotype
    branch_density := branchDensityOf phenotype
    foliage_density := foliageDensityOf phenotype
    trunk_splits := splits.1
    max_height := max_height
    growth_rate := growthRateOf phenotype }

/-! ### Structure cache (src/ascii/art.rs, `PLANT_CACHE` /
`get_or_generate`)

The process-wide `Mutex<HashMap<u64, PlantStructure>>` is modelled as an
association list threaded through `get_or_generate`; insertion conses on
the front, lookup finds the most recent binding. -/

/-- The seed-keyed structure cache. -/
abbrev PlantCache : Type := List (Nat × PlantStructure)

/-- `HashMap::get`. -/
def cacheGet (cache : PlantCache) (seed : Nat) : Option PlantStructure :=
  (List.find? (fun p => p.1 == seed) cache).map (fun p => p.2)

/-- `PlantStructure::get_or_generate`: return the cached structure if
present, otherwise generate, insert, and return it. -/
def get_or_generate (cache : PlantCache) (seed : Nat) :
    PlantStructure × PlantCache :=
  match cacheGet cache seed with
  | some structure' => (structure', cache)
  | none =>
    let structure' := PlantStructure.generate seed
    (structure', (seed, structure') :: cache)

/-- A cache is consistent when every entry is the generated structure for
its seed. -/
def CacheConsistent (cache : PlantCache) : Prop :=
  ∀ s st, cacheGet cache s = some st → st = PlantStructure.generate s

/-- `PlantStructure::trunk_height(day)`: `(day as f32 * growth_rate) as
usize`, capped at `max_height`; the f32 product is embedded as the exact
rational floor (the f32 rounding of `0.22`/`0.23` can shift the floor by
one at exact multiples; no claim below reads the exact height). -/
def PlantStructure.trunk_height (s : PlantStructure) (day : Nat) : Nat :=
  min (⌊(day : ℚ) * s.growth_rate⌋).toNat s.max_height

/-- `PlantStructure::visible_branches(day)`. -/
def PlantStructure.visible_branches (s : PlantStructure) (day : Nat) : List Branch :=
  s.branches.filter (fun b => decide (b.growth_start_day ≤ day))

/-- `PlantStructure::current_foliage_density(day)`:
`foliage_density * min(day / 90, 1)`. -/
def PlantStructure.current_foliage_density (s : PlantStructure) (day : Nat) : ℚ :=
  s.foliage_density * min ((day : ℚ) / 90) 1

/-! ## Renderer (src/ascii/art.rs, `render_plant_structure`, lines 358–595)

The grid is the source's `Vec<Vec<char>>`: a list of 28 rows of 70
characters.  Positions are computed in `Int`; an explicit `wrap8` models
release-mode `i8` wrapping wherever the source's `i8` arithmetic can
exceed the type's range.  Guards of the form `0 ≤ p ∧ p < k` stand for the
source's `usize`-cast comparisons `p < k` (a negative `i8` cast to `usize`
wraps to a huge value, failing `< k`).

The one non-integral ingredient, `PlantStructure::branch_length` (an f32
sigmoid built on `exp`), enters only through the per-branch current length;
the renderer is therefore embedded parametrically in a length oracle
`branchLen : Branch → Nat → ℚ`, and every theorem below holds for *every*
oracle, in particular for the f32 sigmoid of the source. -/

/-- The 28×70 character grid (`Vec<Vec<char>>`). -/
abbrev Grid : Type := List (List Char)

/-- `vec![vec![' '; 70]; 28]`. -/
def initGrid : Grid := List.replicate 28 (List.replicate 70 ' ')

/-- Wrap an integer into `i8` range (release-mode `as i8` / overflow). -/
def wrap8 (x : Int) : Int := (x + 128) % 256 - 128

/-- Write one cell, dropping the write when out of the 28×70 range. -/
def paintAt (g : Grid) (y x : Int) (c : Char) : Grid :=
  if 0 ≤ y ∧ y < 28 ∧ 0 ≤ x ∧ x < 70 then
    List.set g y.toNat ((List.getD g y.toNat []).set x.toNat c)
  else g

/-- Read one cell (out-of-range reads as the blank fill). -/
def cellAt (g : Grid) (y x : Int) : Char :=
  (List.getD g y.toNat []).getD x.toNat ' '

/-- `if lines[y][x] == ' ' { lines[y][x] = ch; }` — first writer wins. -/
def paintIfEmpty (g : Grid) (y x : Int) (c : Char) : Grid :=
  if cellAt g y x = ' ' then paintAt g y x c else g

/-- Per-stage animated trunk glyph (lines 371–392). -/
def trunkGlyph (stage : GrowthStage) (frame : Nat) : Char :=
  match stage with
  | .Seed | .Germination | .Seedling => ['|', '!'].getD (frame % 2) '|'
  | .Vegetative => ['|', '!', 'I'].getD (frame % 3) '|'
  | .PreFlower | .Flowering => ['|', '!', 'I', '║'].getD (frame % 4) '|'
  | .ReadyToHarvest => ['I', '║'].getD (frame % 2) '|'

/-- Inner loop of the split drawing (lines 434–443): continue both arms
upward over `(trunk_start_level..level-1).rev()`. -/
def drawSplitArms (trunkChar : Char) (left right : Int) (rows : List Nat)
    (g : Grid) : Grid :=
  rows.foldl
    (fun g2 (ul : Nat) =>
      let g2 := if 0 ≤ left ∧ left < 70 then paintAt g2 ((ul : Nat) : Int) left trunkChar else g2
      if 0 ≤ right ∧ right < 70 then paintAt g2 ((ul : Nat) : Int) right trunkChar else g2)
    g

/-- One level of the trunk loop (lines 411–452); the folded state carries
the grid and the `split_found` / `split_level_found` mutables. -/
def trunkStep (activeSplits : List TrunkSplit) (trunkChar : Char)
    (trunkStart : Nat) (acc : Grid × Bool × Nat) (level : Nat) :
    Grid × Bool × Nat :=
  let g := acc.1
  let found := acc.2.1
  let flf := acc.2.2
  match activeSplits.find? (fun sp => sp.split_level == 27 - level) with
  | some sp =>
    if found then (g, found, flf)
    else
      let g := paintAt g (level : Int) 35 trunkChar
      -- `(center as i8 ± split.angle.abs()) as usize`
      let left : Int := 35 - (sp.angle.natAbs : Int)
      let right : Int := 35 + (sp.angle.natAbs : Int)
      let g := if 0 ≤ left ∧ left < 70 ∧ 0 < level then
          paintAt g ((level : Int) - 1) left (if sp.angle < 0 then '\\' else '/')
        else g
      let g := if 0 ≤ right ∧ right < 70 ∧ 0 < level then
          paintAt g ((level : Int) - 1) right (if 0 < sp.angle then '/' else '\\')
        else g
      let g := if 2 ≤ level then
          drawSplitArms trunkChar left right
            ((List.range' trunkStart (level - 1 - trunkStart)).reverse) g
        else g
      (g, true, level)
  | none =>
    if found = false ∨ flf < level then (paintAt g (level : Int) 35 trunkChar, found, flf)
    else (g, found, flf)

/-- Branch-segment glyph selection (lines 496–522). -/
def segChar (b : Branch) (i li : Nat) (showFlowers : Bool)
    (flowerChar : List Char) (foliage : ℚ) : Char :=
  if i == li && showFlowers then flowerChar.headD '*'
  else if i == 1 then (if b.direction < 0 then '\\' else '/')
  else if i == li then
    (if 3 / 5 < foliage then (if b.direction < 0 then '\\' else '/')
     else (if b.direction < 0 then '/' else '\\'))
  else if b.curve ≠ 0 ∧ 2 < i then (if 0 < b.curve then '/' else '\\')
  else if b.thickness == 2 then '='
  else if b.thickness == 3 then '#'
  else '_'

/-- `x_pos = center as i8 + (i as i8 * branch.direction)` (line 480). -/
def segX (b : Branch) (i : Nat) : Int :=
  wrap8 (35 + wrap8 (wrap8 (i : Int) * b.direction))

/-- `y_pos` with curvature applied (lines 481–487): bends by
`((i - 2) as i8 / 2) * curve` (i8 T-division and wrapping), clamped into
`[0, 27]`, once `curve ≠ 0` and `i > 2`. -/
def segY (b : Branch) (i lv : Nat) : Int :=
  if b.curve ≠ 0 ∧ 2 < i then
    let curve_amount := wrap8 (Int.tdiv (wrap8 ((i : Int) - 2)) 2 * b.curve)
    min (max (wrap8 ((lv : Int) - curve_amount)) 0) 27
  else (lv : Int)

/-- The per-branch segment loop `for i in 1..=length_int` (lines 479–528),
with the source's `break` on the first out-of-range position.  `fuel`
starts at `li` with `i = 1`. -/
def drawSegs (b : Branch) (lv li : Nat) (showFlowers : Bool)
    (flowerChar : List Char) (foliage : ℚ) :
    Nat → Nat → Grid → Grid
  | 0, _, g => g
  | fuel + 1, i, g =>
    if li < i then g
    else
      let x := segX b i
      let y := segY b i lv
      if x < 0 ∨ 70 ≤ x ∨ y < 0 ∨ 28 ≤ y then g
      else
        drawSegs b lv li showFlowers flowerChar foliage fuel (i + 1)
          (paintIfEmpty g y x (segChar b i li showFlowers flowerChar foliage))

/-- Foliage sprinkle near the branch tip (lines 531–547). -/
def sprinkleFoliage (b : Branch) (lv li : Nat) (showFlowers : Bool)
    (foliage : ℚ) (g : Grid) : Grid :=
  [1, 2].foldl
    (fun g2 off =>
      let fx := wrap8 (35 + wrap8 (wrap8 ((li - off : Nat) : Int) * b.direction))
      let fy := lv - 1
      if 0 < fx ∧ fx < 34 ∧ fy < 14 then
        if cellAt g2 (fy : Int) fx = ' ' ∧ 3 / 5 < foliage then
          paintAt g2 (fy : Int) fx
            (if showFlowers then (if off == 1 then '*' else '.') else ':')
        else g2
      else g2)
    g

/-- Branch bifurcation into two sub-branches (lines 550–575);
`split_point = max(length_int * 2 / 3, 2)` in `u8` arithmetic. -/
def drawBifurcation (b : Branch) (lv li : Nat) (showFlowers : Bool)
    (flowerChar : List Char) (g : Grid) : Grid :=
  let split_point := max (li * 2 % 256 / 3) 2
  [(-1 : Int), 1].foldl
    (fun g2 sd =>
      [(1 : Int), 2].foldl
        (fun g3 i =>
          let base_x := wrap8 (35 + wrap8 (wrap8 (split_point : Int) * b.direction))
          let x := wrap8 (base_x + i * sd)
          let y : Int := (lv : Int) - Int.tdiv i 2
          if 0 ≤ x ∧ x < 70 ∧ 0 ≤ y ∧ y < 28 then
            let ch := if i == 2 && showFlowers then flowerChar.headD '*'
              else if sd < 0 then '\\' else '/'
            (if cellAt g3 y x = ' ' then paintAt g3 y x ch else g3)
          else g3)
        g2)
    g

/-- One visible branch (lines 461–576).  The source computes
`level = 27 - branch.level` in `usize` (wrapping below zero) and skips the
branch when the result is `≥ 27` or the trunk has not reached its level;
`li` is `current_length.ceil() as u8` (a saturating cast), computed from
the length oracle. -/
def branchDraw (day : Nat) (showFlowers : Bool) (flowerChar : List Char)
    (foliage : ℚ) (branchLen : Branch → Nat → ℚ) (g : Grid) (b : Branch)
    (lv : Nat) : Grid :=
  let len := branchLen b day
  if len < 1 / 2 then g
  else
    let li := min (⌈len⌉).toNat 255
    let is_bifurcating := b.can_bifurcate ∧ b.bifurcation_day ≤ day
    let g := drawSegs b lv li showFlowers flowerChar foliage li 1 g
    let g := if 1 / 2 < foliage ∧ 3 ≤ li ∧ 0 < lv then
        sprinkleFoliage b lv li showFlowers foliage g
      else g
    if is_bifurcating ∧ 3 ≤ li then
      drawBifurcation b lv li showFlowers flowerChar g
    else g

/-- One visible branch (lines 461–576), guard part: skip when the `usize`
subtraction `27 - level` wraps or lands at 27, or when the trunk has not
reached the branch's level; otherwise draw. -/
def branchStep (day h : Nat) (showFlowers : Bool) (flowerChar : List Char)
    (foliage : ℚ) (branchLen : Branch → Nat → ℚ) (g : Grid) (b : Branch) :
    Grid :=
  if 27 < b.level then g
  else
    let lv := 27 - b.level
    if 27 ≤ lv then g
    else if h < b.level then g
    else branchDraw day showFlowers flowerChar foliage branchLen g b lv

/-- The 38-character soil run (line 579). -/
def soilLine : List Char := List.replicate 38 '~'

/-- Soil pass (lines 580–585): write the run at row 27 from column 16. -/
def drawSoil (g : Grid) : Grid :=
  (soilLine.enum).foldl
    (fun g2 ic =>
      if 16 + ic.1 < 70 then paintAt g2 27 ((16 + ic.1 : Nat) : Int) ic.2 else g2)
    g

/-- Final conversion (lines 588–594): every row is truncated to at most 70
characters and padded back to exactly 70 (`format!("{:70}", …)`). -/
def padRow (row : List Char) : List Char :=
  let r := row.take 70
  r ++ List.replicate (70 - r.length) ' '

/-- `render_plant_structure` (lines 358–585): everything up to and
including the soil pass, before the final row conversion. -/
def renderCore (day : Nat) (s : PlantStructure) (frame : Nat)
    (showFlowers : Bool) (flowerChar : List Char) (stage : GrowthStage)
    (branchLen : Branch → Nat → ℚ) : Grid :=
  let trunkChar := trunkGlyph stage frame
  let h := s.trunk_height day
  -- `(27 - h).max(0)` in `usize`: for `h > 27` the wrapped value empties
  -- the `trunk_start_level..=27` range, so no trunk row is drawn.
  let trunkStart := 27 - h
  let activeSplits := s.trunk_splits.filter (fun sp => decide (sp.split_day ≤ day))
  let levels := if h ≤ 27 then List.range' trunkStart (h + 1) else []
  let g := (levels.foldl (trunkStep activeSplits trunkChar trunkStart)
    (initGrid, false, 0)).1
  let visible := s.visible_branches day
  let foliage := s.current_foliage_density day
  let g := visible.foldl (branchStep day h showFlowers flowerChar foliage branchLen) g
  drawSoil g

/-- `render_plant_structure` (lines 358–595), parametric in the f32 length
oracle: the painted grid with every row padded/truncated to 70. -/
def renderPlantStructure (day : Nat) (s : PlantStructure) (frame : Nat)
    (showFlowers : Bool) (flowerChar : List Char) (stage : GrowthStage)
    (branchLen : Branch → Nat → ℚ) : Grid :=
  (renderCore day s frame showFlowers flowerChar stage branchLen).map padRow

/-- Well-formedness of the render buffer: 28 rows of 70 characters. -/
def ShapeOK (g : Grid) : Prop :=
  g.length = 28 ∧ ∀ r ∈ g, r.length = 70

/-! ## Spec-side definitions

These follow the specification's wording (not the source) and exist only to
be compared against the source-derived definitions above. -/

/-- Spec-side harvest care quality:
`careQuality = max(0.7, (waterOptimalPct + nutrientOptimalPct)/200)`. -/
def specCareQuality (p : Plant) : ℚ :=
  max (7 / 10)
    ((p.care_history.calculate_water_percentage +
      p.care_history.calculate_nutrient_percentage) / 200)

/-- Spec-side harvest stress penalty:
`stressPenalty = min(0.3, stressEventCount * 0.02)`. -/
def specStressPenalty (p : Plant) : ℚ :=
  min (3 / 10) ((p.care_history.stress_events.length : ℚ) * (2 / 100))

/-- Number of recorded `LowWater` stress events in an event list. -/
def lowWaterCount (evs : List StressEvent) : Nat :=
  (evs.filter (fun e => e.cause == StressCause.LowWater)).length

/-- A concrete plant used to instantiate harvest theorems: yield potential
100, fresh (default) care history, hence zero stress events and 100%
optimal percentages. -/
def harvestWitnessPlant : Plant :=
  { id := 0
    strain_name := "Test"
    stage := .Seedling
    days_alive := 1
    total_hours_elapsed := 0
    water_level := 60
    nutrient_level := 60
    light_cycle := .Veg18_6
    health := .Excellent
    genetics :=
      { yield_potential := 100
        growth_rate := 1
        resilience := 1 / 2
        quality_ceiling := 100
        strain_info := none
        thc_percent := 20
        cbd_percent := 1 }
    care_history := defaultCareHistory
    co2_level := 80
    light_absorption := 50
    temperature := 24
    humidity := 60
    root_development := 10
    canopy_density := 5 }

/-! ## Claim C1: growth-stage day bands -/

/-- **C1.** `calculate_stage` maps days alive to growth stages via the
fixed bands 1–10 Seedling, 11–40 Vegetative, 41–48 PreFlower, 49–85
Flowering, 86 and above ReadyToHarvest; in particular
`calculate_stage 10 = Seedling`, `calculate_stage 11 = Vegetative`,
`calculate_stage 48 = PreFlower`, `calculate_stage 49 = Flowering`,
`calculate_stage 85 = Flowering`, `calculate_stage 86 = ReadyToHarvest`. -/
theorem C1_stage_bands :
    (∀ d : Nat, 1 ≤ d → d ≤ 10 → Plant.calculate_stage d = .Seedling) ∧
    (∀ d : Nat, 11 ≤ d → d ≤ 40 → Plant.calculate_stage d = .Vegetative) ∧
    (∀ d : Nat, 41 ≤ d → d ≤ 48 → Plant.calculate_stage d = .PreFlower) ∧
    (∀ d : Nat, 49 ≤ d → d ≤ 85 → Plant.calculate_stage d = .Flowering) ∧
    (∀ d : Nat, 86 ≤ d → Plant.calculate_stage d = .ReadyToHarvest) ∧
    Plant.calculate_stage 10 = .Seedling ∧
    Plant.calculate_stage 11 = .Vegetative ∧
    Plant.calculate_stage 48 = .PreFlower ∧
    Plant.calculate_stage 49 = .Flowering ∧
    Plant.calculate_stage 85 = .Flowering ∧
    Plant.calculate_stage 86 = .ReadyToHarvest := by
  refine ⟨?_, ?_, ?_, ?_, ?_, by decide, by decide, by decide, by decide,
    by decide, by decide⟩ <;>
  · intro d
    simp only [Plant.calculate_stage]
    split_ifs <;> first | (intros; rfl) | (intros; exfalso; omega)

/-- Witness for C1 at day 5. -/
theorem C1_stage_bands_witness : Plant.calculate_stage 5 = .Seedling :=
  C1_stage_bands.1 5 (by decide) (by decide)

/-! ## Claim C4: health bands and the critical override -/

/-- **C4.** `calculate_health` returns Critical whenever water < 10 or
water > 95 or nutrients < 20 or nutrients > 95, overriding every other
rule (in particular `calculate_health 5 60 = Critical`); otherwise Poor
when water is outside [40,80] and nutrients outside [50,80]; Fair when
exactly one is outside its band; Excellent when water ∈ [50,70] and
nutrients ∈ [60,75]; and Good for the remaining in-band cases. -/
theorem C4_health_bands :
    (∀ w n : ℚ, ((w < 10 ∨ 95 < w) ∨ (n < 20 ∨ 95 < n)) →
      Plant.calculate_health w n = .Critical) ∧
    (∀ w n : ℚ, ¬((w < 10 ∨ 95 < w) ∨ (n < 20 ∨ 95 < n)) →
      ¬(40 ≤ w ∧ w ≤ 80) → ¬(50 ≤ n ∧ n ≤ 80) →
      Plant.calculate_health w n = .Poor) ∧
    (∀ w n : ℚ, ¬((w < 10 ∨ 95 < w) ∨ (n < 20 ∨ 95 < n)) →
      (((40 ≤ w ∧ w ≤ 80) ∧ ¬(50 ≤ n ∧ n ≤ 80)) ∨
        (¬(40 ≤ w ∧ w ≤ 80) ∧ (50 ≤ n ∧ n ≤ 80))) →
      Plant.calculate_health w n = .Fair) ∧
    (∀ w n : ℚ, ¬((w < 10 ∨ 95 < w) ∨ (n < 20 ∨ 95 < n)) →
      50 ≤ w → w ≤ 70 → 60 ≤ n → n ≤ 75 →
      Plant.calculate_health w n = .Excellent) ∧
    (∀ w n : ℚ, ¬((w < 10 ∨ 95 < w) ∨ (n < 20 ∨ 95 < n)) →
      (40 ≤ w ∧ w ≤ 80) → (50 ≤ n ∧ n ≤ 80) →
      ¬(50 ≤ w ∧ w ≤ 70 ∧ 60 ≤ n ∧ n ≤ 75) →
      Plant.calculate_health w n = .Good) ∧
    Plant.calculate_health 5 60 = .Critical := by
  refine ⟨?_, ?_, ?_, ?_, ?_, by decide⟩
  · intro w n hc
    simp only [Plant.calculate_health]
    rw [if_pos hc]
  · intro w n hc hw hn
    simp only [Plant.calculate_health]
    rw [if_neg hc, if_pos ⟨hw, hn⟩]
  · intro w n hc h
    rcases h with ⟨hw, hn⟩ | ⟨hw, hn⟩
    · simp only [Plant.calculate_health]
      rw [if_neg hc, if_neg (fun h2 => h2.1 hw), if_pos (Or.inr hn)]
    · simp only [Plant.calculate_health]
      rw [if_neg hc, if_neg (fun h2 => h2.2 hn), if_pos (Or.inl hw)]
  · intro w n hc h50 h70 h60 h75
    have hwopt : 40 ≤ w ∧ w ≤ 80 := ⟨by linarith, by linarith⟩
    have hnopt : 50 ≤ n ∧ n ≤ 80 := ⟨by linarith, by linarith⟩
    simp only [Plant.calculate_health]
    rw [if_neg hc, if_neg (fun h2 => h2.1 hwopt),
      if_neg (fun h2 => h2.elim (fun hnw => hnw hwopt) (fun hnn => hnn hnopt)),
      if_pos ⟨h50, h70, h60, h75⟩]
  · intro w n hc hwopt hnopt hne
    simp only [Plant.calculate_health]
    rw [if_neg hc, if_neg (fun h2 => h2.1 hwopt),
      if_neg (fun h2 => h2.elim (fun hnw => hnw hwopt) (fun hnn => hnn hnopt)),
      if_neg hne]

/-- Witness for C4: the critical override at water 5, nutrients 60. -/
theorem C4_health_bands_witness : Plant.calculate_health 5 60 = .Critical :=
  C4_health_bands.1 5 60 (Or.inl (Or.inl (by norm_num)))

/-! ## Claim C10: day 0 falls into the catch-all arm -/

/-- **C10.** `calculate_stage 0 = ReadyToHarvest`: an input of 0 days
falls into the catch-all arm; and since `update_time` recomputes
`days_alive = floor(total_hours_elapsed / 24)`, any accumulated game time
under 24 hours gives `days_alive = 0` and hence stage ReadyToHarvest. -/
theorem C10_day_zero_stage :
    Plant.calculate_stage 0 = .ReadyToHarvest ∧
    ∀ hrs : ℚ, 0 ≤ hrs → hrs < 24 →
      daysAliveFromHours hrs = 0 ∧
      Plant.calculate_stage (daysAliveFromHours hrs) = .ReadyToHarvest := by
  refine ⟨by decide, ?_⟩
  intro hrs h0 h24
  have hfloor : ⌊hrs / 24⌋ = 0 := by
    rw [Int.floor_eq_zero_iff]
    constructor
    · positivity
    · rw [div_lt_one (by norm_num)]
      exact h24
  have hdays : daysAliveFromHours hrs = 0 := by
    unfold daysAliveFromHours
    rw [hfloor]
    rfl
  exact ⟨hdays, by rw [hdays]; decide⟩

/-- Witness for C10 at 5 accumulated game hours. -/
theorem C10_day_zero_stage_witness :
    daysAliveFromHours 5 = 0 ∧
    Plant.calculate_stage (daysAliveFromHours 5) = .ReadyToHarvest :=
  C10_day_zero_stage.2 5 (by norm_num) (by norm_num)

/-! ## Claim C3: harvest arithmetic -/

/-- Appending one event changes the LowWater count iff its cause is
LowWater. -/
theorem lowWaterCount_append (l : List StressEvent) (e : StressEvent) :
    lowWaterCount (l ++ [e]) =
      lowWaterCount l + (if e.cause = StressCause.LowWater then 1 else 0) := by
  by_cases h : e.cause = StressCause.LowWater <;>
    simp [lowWaterCount, List.filter_append, h]

/-- **C3.** The harvest result satisfies
`careQuality = max(0.7, (waterOptimalPct + nutrientOptimalPct)/200)` with
each percentage cumulative optimal-hours / total-hours (100 when total
hours is zero), `stressPenalty = min(0.3, stressEventCount * 0.02)`,
`weight = yieldPotential * careQuality * (1 - stressPenalty)`,
`qualityScore = clamp(careQuality*100*(1-stressPenalty), 0, 100)`, and
THC/CBD scaled by `0.7 + qualityScore/100*0.3`; in particular a plant with
yield potential 100, zero stress events and care quality 1 yields weight
100 and quality score 100. -/
theorem C3_harvest_arithmetic :
    ∀ p : Plant,
      (p.care_history.total_hours = 0 →
        p.care_history.calculate_water_percentage = 100 ∧
        p.care_history.calculate_nutrient_percentage = 100) ∧
      (p.care_history.total_hours ≠ 0 →
        p.care_history.calculate_water_percentage =
          p.care_history.total_optimal_water_hours / p.care_history.total_hours * 100 ∧
        p.care_history.calculate_nutrient_percentage =
          p.care_history.total_optimal_nutrient_hours / p.care_history.total_hours * 100) ∧
      (HarvestResult.from_plant p).weight_grams =
        p.genetics.yield_potential * specCareQuality p * (1 - specStressPenalty p) ∧
      (HarvestResult.from_plant p).quality_score =
        min (max (specCareQuality p * 100 * (1 - specStressPenalty p)) 0) 100 ∧
      (HarvestResult.from_plant p).thc_percent =
        p.genetics.thc_percent *
          (7 / 10 + (HarvestResult.from_plant p).quality_score / 100 * (3 / 10)) ∧
      (HarvestResult.from_plant p).cbd_percent =
        p.genetics.cbd_percent *
          (7 / 10 + (HarvestResult.from_plant p).quality_score / 100 * (3 / 10)) ∧
      (p.genetics.yield_potential = 100 → p.care_history.stress_events = [] →
        specCareQuality p = 1 →
        (HarvestResult.from_plant p).weight_grams = 100 ∧
        (HarvestResult.from_plant p).quality_score = 100) := by
  intro p
  have hwg : (HarvestResult.from_plant p).weight_grams =
      p.genetics.yield_potential * specCareQuality p * (1 - specStressPenalty p) := by
    simp only [HarvestResult.from_plant, specCareQuality, specStressPenalty, max_comm, min_comm]
  have hqs : (HarvestResult.from_plant p).quality_score =
      min (max (specCareQuality p * 100 * (1 - specStressPenalty p)) 0) 100 := by
    simp only [HarvestResult.from_plant, specCareQuality, specStressPenalty, max_comm, min_comm]
  refine ⟨?_, ?_, hwg, hqs, ?_, ?_, ?_⟩
  · intro h
    constructor <;>
      simp [CareHistory.calculate_water_percentage,
        CareHistory.calculate_nutrient_percentage, h]
  · intro h
    constructor <;>
      simp [CareHistory.calculate_water_percentage,
        CareHistory.calculate_nutrient_percentage, h]
  · simp only [HarvestResult.from_plant]
  · simp only [HarvestResult.from_plant]
  · intro hy he hc
    have hsp : specStressPenalty p = 0 := by
      simp only [specStressPenalty, he, List.length_nil, Nat.cast_zero, zero_mul]
      norm_num
    constructor
    · rw [hwg, hy, hc, hsp]; norm_num
    · rw [hqs, hc, hsp]; norm_num

/-- Witness for C3: the concrete fresh plant with yield potential 100. -/
theorem C3_harvest_arithmetic_witness :
    (HarvestResult.from_plant harvestWitnessPlant).weight_grams = 100 ∧
    (HarvestResult.from_plant harvestWitnessPlant).quality_score = 100 :=
  (C3_harvest_arithmetic harvestWitnessPlant).2.2.2.2.2.2 rfl rfl
    (by
      have h1 : specCareQuality harvestWitnessPlant = max (7 / 10) 1 := by
        norm_num [specCareQuality, harvestWitnessPlant, defaultCareHistory,
          CareHistory.calculate_water_percentage,
          CareHistory.calculate_nutrient_percentage]
      rw [h1, max_eq_right (by norm_num : (7 : ℚ) / 10 ≤ 1)])

/-! ## Claim C7: stress-event deduplication -/

/-- `has_recent_stress` reads only the event list. -/
theorem has_recent_stress_eq_of_events (h1 h2 : CareHistory) (cause : StressCause)
    (d : Nat) (he : h1.stress_events = h2.stress_events) :
    h1.has_recent_stress cause d = h2.has_recent_stress cause d := by
  simp [CareHistory.has_recent_stress, he]

/-- The low-water block appends one LowWater event exactly when
`has_recent_stress` is false. -/
theorem lowWaterCount_recordStress1 (w : ℚ) (d : Nat) (ch : CareHistory)
    (hw : w < 20) :
    lowWaterCount (recordStress1 w d ch).stress_events =
      lowWaterCount ch.stress_events +
        (if ch.has_recent_stress .LowWater d = true then 0 else 1) := by
  unfold recordStress1
  cases hb : ch.has_recent_stress .LowWater d with
  | false => rw [if_pos ⟨hw, rfl⟩]; simp [lowWaterCount_append]
  | true =>
    rw [if_neg (fun hcc => Bool.noConfusion hcc.2)]
    simp

/-- The high-water block never changes the LowWater count. -/
theorem lowWaterCount_recordStress2 (w : ℚ) (d : Nat) (ch : CareHistory) :
    lowWaterCount (recordStress2 w d ch).stress_events =
      lowWaterCount ch.stress_events := by
  unfold recordStress2
  split_ifs <;> simp [lowWaterCount_append]

/-- The low-nutrients block never changes the LowWater count. -/
theorem lowWaterCount_recordStress3 (n : ℚ) (d : Nat) (ch : CareHistory) :
    lowWaterCount (recordStress3 n d ch).stress_events =
      lowWaterCount ch.stress_events := by
  unfold recordStress3
  split_ifs <;> simp [lowWaterCount_append]

/-- The nutrient-burn block never changes the LowWater count. -/
theorem lowWaterCount_recordStress4 (n : ℚ) (d : Nat) (ch : CareHistory) :
    lowWaterCount (recordStress4 n d ch).stress_events =
      lowWaterCount ch.stress_events := by
  unfold recordStress4
  split_ifs <;> simp [lowWaterCount_append]

/-- **C7.** Stress recording is deduplicated per cause over a 5-day window
scanned over at most the 10 most recent events: `has_recent_stress` holds
iff an event of the same cause among the last 10 recorded has a day within
the last 5 simulated days; under a low-water condition one `LowWater`
event is appended exactly when no such recent event exists; consequently
two low-water conditions 2 simulated days apart produce exactly one
`LowWater` event, while 6 days apart produce two. -/
theorem C7_stress_dedup :
    (∀ (ch : CareHistory) (cause : StressCause) (d : Nat),
      ch.has_recent_stress cause d = true ↔
        ∃ e ∈ ch.stress_events.reverse.take 10, e.cause = cause ∧ d - 5 ≤ e.day) ∧
    (∀ (ch : CareHistory) (w n : ℚ) (d : Nat), w < 20 →
      lowWaterCount (recordStressEvents w n d ch).stress_events =
        lowWaterCount ch.stress_events +
          (if ch.has_recent_stress .LowWater d = true then 0 else 1)) ∧
    (∀ d : Nat,
      lowWaterCount (recordStressEvents 10 60 (d + 2)
        (recordStressEvents 10 60 d defaultCareHistory)).stress_events = 1) ∧
    (∀ d : Nat,
      lowWaterCount (recordStressEvents 10 60 (d + 6)
        (recordStressEvents 10 60 d defaultCareHistory)).stress_events = 2) := by
  have hcount : ∀ (ch : CareHistory) (w n : ℚ) (d : Nat), w < 20 →
      lowWaterCount (recordStressEvents w n d ch).stress_events =
        lowWaterCount ch.stress_events +
          (if ch.has_recent_stress .LowWater d = true then 0 else 1) := by
    intro ch w n d hw
    unfold recordStressEvents
    rw [lowWaterCount_recordStress4, lowWaterCount_recordStress3,
      lowWaterCount_recordStress2, lowWaterCount_recordStress1 _ _ _ hw]
  have hfirst : ∀ d : Nat,
      (recordStressEvents 10 60 d defaultCareHistory).stress_events =
        [⟨d, .Moderate, .LowWater⟩] := by
    intro d
    norm_num [recordStressEvents, recordStress1, recordStress2, recordStress3,
      recordStress4, defaultCareHistory, CareHistory.has_recent_stress]
  have hone : ∀ d : Nat,
      lowWaterCount (recordStressEvents 10 60 d defaultCareHistory).stress_events = 1 := by
    intro d
    rw [hfirst d]
    simp [lowWaterCount]
  refine ⟨?_, hcount, ?_, ?_⟩
  · intro ch cause d
    simp [CareHistory.has_recent_stress, List.any_eq_true, Bool.and_eq_true,
      beq_iff_eq, decide_eq_true_eq]
  · intro d
    rw [hcount _ _ _ _ (by norm_num), hone d]
    have hrec : (recordStressEvents 10 60 d defaultCareHistory).has_recent_stress
        .LowWater (d + 2) = true := by
      unfold CareHistory.has_recent_stress
      rw [hfirst d]
      simp [show d + 2 - 5 ≤ d by omega]
    rw [hrec]
    rfl
  · intro d
    rw [hcount _ _ _ _ (by norm_num), hone d]
    have hrec : (recordStressEvents 10 60 d defaultCareHistory).has_recent_stress
        .LowWater (d + 6) = false := by
      unfold CareHistory.has_recent_stress
      rw [hfirst d]
      simp [show ¬(d + 6 - 5 ≤ d) by omega]
    rw [hrec]
    rfl

/-- Witness for C7: one low-water tick on a fresh history appends exactly
one LowWater event. -/
theorem C7_stress_dedup_witness :
    lowWaterCount (recordStressEvents 10 60 3 defaultCareHistory).stress_events =
      lowWaterCount defaultCareHistory.stress_events +
        (if defaultCareHistory.has_recent_stress .LowWater 3 = true then 0 else 1) :=
  C7_stress_dedup.2.1 defaultCareHistory 10 60 3 (by norm_num)

/-! ## Claim C2: deterministic generation and cache consistency -/

/-- **C2.** Plant-structure generation is deterministic: `generate` is a
pure function of the seed alone (the embedding threads the sole entropy
source, the seed-initialised `SimpleRng`, explicitly), so two calls on the
same seed yield identical `PlantStructure` values; moreover
`get_or_generate` on any cache whose entries agree with `generate` returns
exactly `generate seed` and preserves that consistency. -/
theorem C2_generate_deterministic :
    ∀ seed : Nat,
      PlantStructure.generate seed = PlantStructure.generate seed ∧
      ∀ cache : PlantCache, CacheConsistent cache →
        (get_or_generate cache seed).1 = PlantStructure.generate seed ∧
        CacheConsistent (get_or_generate cache seed).2 := by
  intro seed
  refine ⟨rfl, ?_⟩
  intro cache hc
  unfold get_or_generate
  cases hfind : cacheGet cache seed with
  | some st =>
    exact ⟨hc seed st hfind, fun s st2 h => hc s st2 h⟩
  | none =>
    refine ⟨rfl, ?_⟩
    intro s st2 h
    by_cases hs : seed = s
    · subst hs
      simp [cacheGet, List.find?] at h
      exact h.symm
    · have hbeq : (seed == s) = false := beq_false_of_ne hs
      simp [cacheGet, List.find?, hbeq] at h
      exact hc s st2 (by simpa [cacheGet] using h)

/-- Witness for C2: the empty cache is consistent, and a lookup-or-generate
on it returns the generated structure. -/
theorem C2_generate_deterministic_witness :
    (get_or_generate ([] : PlantCache) 0).1 = PlantStructure.generate 0 ∧
    CacheConsistent (get_or_generate ([] : PlantCache) 0).2 :=
  (C2_generate_deterministic 0).2 []
    (fun _ _ h => by simp [cacheGet, List.find?] at h)

/-! ## Claims C8 and C9: generated-structure invariants -/

/-- Every phenotype's `max_height` is at least 12. -/
theorem maxHeightOf_ge (ph : Phenotype) (r : Nat) : 12 ≤ maxHeightOf ph r := by
  cases ph <;> simp [maxHeightOf] <;> omega

/-- Every phenotype's primary-branch count is positive. -/
theorem numPrimaryOf_pos (ph : Phenotype) (r : Nat) : 0 < numPrimaryOf ph r := by
  cases ph <;> simp [numPrimaryOf]

/-- At most two trunk splits are scheduled. -/
theorem numSplitsOf_le_two (ph : Phenotype) (r : Nat) : numSplitsOf ph r ≤ 2 := by
  cases ph <;> simp only [numSplitsOf] <;> split_ifs <;> omega

/-- The trunk-split loop produces exactly `n` splits. -/
theorem genTrunkSplits_length (n : Nat) (rng : SimpleRng) :
    (genTrunkSplits n rng).1.length = n := by
  induction n generalizing rng with
  | zero => rfl
  | succ n ih => simp [genTrunkSplits, ih]

/-- Field bounds of a single generated trunk split. -/
theorem genTrunkSplit_bounds (rng : SimpleRng) :
    20 ≤ (genTrunkSplit rng).1.split_day ∧ (genTrunkSplit rng).1.split_day ≤ 50 ∧
    4 ≤ (genTrunkSplit rng).1.split_level ∧ (genTrunkSplit rng).1.split_level ≤ 8 ∧
    -2 ≤ (genTrunkSplit rng).1.angle ∧ (genTrunkSplit rng).1.angle ≤ 2 := by
  simp only [genTrunkSplit]
  have h1 : (rng.next).1 % 30 < 30 := Nat.mod_lt _ (by norm_num)
  have h2 : ((rng.next).2.next).1 % 4 < 4 := Nat.mod_lt _ (by norm_num)
  have h3 : (((rng.next).2.next).2.next).1 % 5 < 5 := Nat.mod_lt _ (by norm_num)
  refine ⟨by omega, by omega, by omega, by omega, by omega, by omega⟩

/-- Field bounds of every generated trunk split, by index. -/
theorem genTrunkSplits_bounds (n : Nat) (rng : SimpleRng) :
    ∀ i, i < n →
      20 ≤ ((genTrunkSplits n rng).1.getD i default).split_day ∧
      ((genTrunkSplits n rng).1.getD i default).split_day ≤ 50 ∧
      4 ≤ ((genTrunkSplits n rng).1.getD i default).split_level ∧
      ((genTrunkSplits n rng).1.getD i default).split_level ≤ 8 ∧
      -2 ≤ ((genTrunkSplits n rng).1.getD i default).angle ∧
      ((genTrunkSplits n rng).1.getD i default).angle ≤ 2 := by
  induction n generalizing rng with
  | zero => intro i hi; omega
  | succ n ih =>
    intro i hi
    cases i with
    | zero => simpa [genTrunkSplits] using genTrunkSplit_bounds rng
    | succ i =>
      simpa [genTrunkSplits] using ih (genTrunkSplit rng).2 i (by omega)

/-- **C8.** For every seed the generated structure contains between 0 and
2 trunk splits, and every trunk split has `split_day` in 20–50,
`split_level` in 4–8 and `angle` in −2..2. -/
theorem C8_trunk_split_bounds :
    ∀ seed : Nat,
      (PlantStructure.generate seed).trunk_splits.length ≤ 2 ∧
      ∀ i : Nat, i < (PlantStructure.generate seed).trunk_splits.length →
        20 ≤ ((PlantStructure.generate seed).trunk_splits.getD i default).split_day ∧
        ((PlantStructure.generate seed).trunk_splits.getD i default).split_day ≤ 50 ∧
        4 ≤ ((PlantStructure.generate seed).trunk_splits.getD i default).split_level ∧
        ((PlantStructure.generate seed).trunk_splits.getD i default).split_level ≤ 8 ∧
        -2 ≤ ((PlantStructure.generate seed).trunk_splits.getD i default).angle ∧
        ((PlantStructure.generate seed).trunk_splits.getD i default).angle ≤ 2 := by
  intro seed
  simp only [PlantStructure.generate]
  constructor
  · rw [genTrunkSplits_length]
    exact numSplitsOf_le_two _ _
  · intro i hi
    rw [genTrunkSplits_length] at hi
    exact genTrunkSplits_bounds _ _ i hi

/-- Witness for C8 at seed 4 (a Bushy structure, which always schedules at
least one trunk split). -/
theorem C8_trunk_split_bounds_witness :
    20 ≤ ((PlantStructure.generate 4).trunk_splits.getD 0 default).split_day ∧
    ((PlantStructure.generate 4).trunk_splits.getD 0 default).split_day ≤ 50 ∧
    4 ≤ ((PlantStructure.generate 4).trunk_splits.getD 0 default).split_level ∧
    ((PlantStructure.generate 4).trunk_splits.getD 0 default).split_level ≤ 8 ∧
    -2 ≤ ((PlantStructure.generate 4).trunk_splits.getD 0 default).angle ∧
    ((PlantStructure.generate 4).trunk_splits.getD 0 default).angle ≤ 2 :=
  (C8_trunk_split_bounds 4).2 0 (by
    simp only [PlantStructure.generate]
    rw [genTrunkSplits_length]
    rw [show phenotypeOf ((SimpleRng.new 4).next).1 = Phenotype.Bushy from by decide]
    simp only [numSplitsOf]
    split <;> omega)

/-- The primary-branch loop produces exactly `n` branches. -/
theorem genPrimaryBranches_length (ph : Phenotype) (mh n : Nat) (rng : SimpleRng) :
    (genPrimaryBranches ph mh n rng).1.length = n := by
  induction n generalizing rng with
  | zero => rfl
  | succ n ih => simp [genPrimaryBranches, ih]

/-- Invariants of one generated primary branch: level in `[1, mh)`, not
secondary, no parent index. -/
theorem genPrimaryBranch_facts (ph : Phenotype) (mh : Nat) (rng : SimpleRng)
    (hmh : 12 ≤ mh) :
    1 ≤ (genPrimaryBranch ph mh rng).1.level ∧
    (genPrimaryBranch ph mh rng).1.level < mh ∧
    (genPrimaryBranch ph mh rng).1.is_secondary = false ∧
    (genPrimaryBranch ph mh rng).1.parent_index = none := by
  cases ph
  case Tall =>
    simp only [genPrimaryBranch]
    have h : (rng.next).1 % (mh - 1) < mh - 1 := Nat.mod_lt _ (by omega)
    refine ⟨by omega, by omega, by trivial, by trivial⟩
  case Bushy =>
    simp only [genPrimaryBranch]
    rw [max_eq_left (by omega : 1 ≤ mh - 2)]
    have h : (rng.next).1 % (mh - 2) < mh - 2 := Nat.mod_lt _ (by omega)
    refine ⟨by omega, by omega, by trivial, by trivial⟩
  case Balanced =>
    simp only [genPrimaryBranch]
    rw [max_eq_left (by omega : 1 ≤ mh - 2)]
    have h : (rng.next).1 % (mh - 2) < mh - 2 := Nat.mod_lt _ (by omega)
    refine ⟨by omega, by omega, by trivial, by trivial⟩

/-- Invariants of every generated primary branch. -/
theorem genPrimaryBranches_facts (ph : Phenotype) (mh : Nat) (hmh : 12 ≤ mh) :
    ∀ (n : Nat) (rng : SimpleRng), ∀ b ∈ (genPrimaryBranches ph mh n rng).1,
      1 ≤ b.level ∧ b.level < mh ∧ b.is_secondary = false ∧
      b.parent_index = none := by
  intro n
  induction n with
  | zero => intro rng b hb; simp [genPrimaryBranches] at hb
  | succ n ih =>
    intro rng b hb
    simp only [genPrimaryBranches] at hb
    rcases List.mem_cons.mp hb with h | h
    · subst h; exact genPrimaryBranch_facts ph mh rng hmh
    · exact ih _ b h

/-- The secondary-branch level clamp lands in `[1, mh)`. -/
theorem clampLevel_bounds (x : Int) (mh : Nat) (h : 12 ≤ mh) :
    1 ≤ (min (max x 1) ((mh : Int) - 1)).toNat ∧
    (min (max x 1) ((mh : Int) - 1)).toNat < mh := by
  have h1 : (1 : Int) ≤ min (max x 1) ((mh : Int) - 1) :=
    le_min (le_max_right _ _) (by omega)
  have h2 : min (max x 1) ((mh : Int) - 1) ≤ (mh : Int) - 1 := min_le_right _ _
  omega

/-- Invariants of one generated secondary branch: clamped level in
`[1, mh)`, secondary, parent index valid for the primary list. -/
theorem genSecondaryBranch_facts (prims : List Branch) (mh : Nat)
    (rng : SimpleRng) (hmh : 12 ≤ mh) (hp : 0 < prims.length) :
    (1 ≤ (genSecondaryBranch prims mh rng).1.level ∧
      (genSecondaryBranch prims mh rng).1.level < mh) ∧
    (genSecondaryBranch prims mh rng).1.is_secondary = true ∧
    ∃ j, (genSecondaryBranch prims mh rng).1.parent_index = some j ∧
      j < prims.length := by
  simp only [genSecondaryBranch]
  refine ⟨⟨(clampLevel_bounds _ mh hmh).1, (clampLevel_bounds _ mh hmh).2⟩,
    by trivial, ⟨(rng.next).1 % prims.length, by trivial, Nat.mod_lt _ hp⟩⟩

/-- Invariants of every generated secondary branch. -/
theorem genSecondaryBranches_facts (prims : List Branch) (mh : Nat)
    (hmh : 12 ≤ mh) (hp : 0 < prims.length) :
    ∀ (n : Nat) (rng : SimpleRng), ∀ b ∈ (genSecondaryBranches prims mh n rng).1,
      (1 ≤ b.level ∧ b.level < mh) ∧ b.is_secondary = true ∧
      ∃ j, b.parent_index = some j ∧ j < prims.length := by
  intro n
  induction n with
  | zero => intro rng b hb; simp [genSecondaryBranches] at hb
  | succ n ih =>
    intro rng b hb
    simp only [genSecondaryBranches] at hb
    rcases List.mem_cons.mp hb with h | h
    · subst h; exact genSecondaryBranch_facts prims mh rng hmh hp
    · exact ih _ b h

/-- Indexed invariant of a primary-then-secondary branch list: levels in
`[1, mh)` everywhere, and every secondary element points back at a
strictly earlier primary element. -/
theorem branches_append_invariant (prim sec : List Branch) (mh : Nat)
    (hprim : ∀ b ∈ prim, 1 ≤ b.level ∧ b.level < mh ∧ b.is_secondary = false ∧
      b.parent_index = none)
    (hsec : ∀ b ∈ sec, (1 ≤ b.level ∧ b.level < mh) ∧ b.is_secondary = true ∧
      ∃ j, b.parent_index = some j ∧ j < prim.length) :
    ∀ i, i < (prim ++ sec).length →
      (1 ≤ ((prim ++ sec).getD i default).level ∧
        ((prim ++ sec).getD i default).level < mh) ∧
      (((prim ++ sec).getD i default).is_secondary = true →
        ∃ j, ((prim ++ sec).getD i default).parent_index = some j ∧ j < i ∧
          j < (prim ++ sec).length ∧
          ((prim ++ sec).getD j default).is_secondary = false) := by
  intro i hi
  by_cases hip : i < prim.length
  · rw [List.getD_append _ _ _ _ hip]
    have hmem : prim.getD i default ∈ prim := by
      rw [List.getD_eq_getElem _ _ hip]
      exact List.getElem_mem hip
    obtain ⟨h1, h2, h3, _⟩ := hprim _ hmem
    exact ⟨⟨h1, h2⟩, fun hsec' => absurd (h3 ▸ hsec') (by simp)⟩
  · have hple : prim.length ≤ i := Nat.le_of_not_lt hip
    rw [List.getD_append_right _ _ _ _ hple]
    have hlt : i - prim.length < sec.length := by
      rw [List.length_append] at hi
      omega
    have hmem : sec.getD (i - prim.length) default ∈ sec := by
      rw [List.getD_eq_getElem _ _ hlt]
      exact List.getElem_mem hlt
    obtain ⟨hlev, _, j, hj, hjlt⟩ := hsec _ hmem
    refine ⟨hlev, fun _ => ⟨j, hj, by omega, ?_, ?_⟩⟩
    · rw [List.length_append]; omega
    · rw [List.getD_append _ _ _ _ hjlt]
      have hmemj : prim.getD j default ∈ prim := by
        rw [List.getD_eq_getElem _ _ hjlt]
        exact List.getElem_mem hjlt
      exact (hprim _ hmemj).2.2.1

/-- **C9.** For every seed, every branch of the generated structure has a
level at least 1 and strictly below `max_height`, and every secondary
branch carries `parent_index = some j` with `j` the index of an
earlier-generated primary (non-secondary) branch. -/
theorem C9_branch_invariants :
    ∀ seed : Nat, ∀ i : Nat,
      i < (PlantStructure.generate seed).branches.length →
      (1 ≤ ((PlantStructure.generate seed).branches.getD i default).level ∧
        ((PlantStructure.generate seed).branches.getD i default).level <
          (PlantStructure.generate seed).max_height) ∧
      (((PlantStructure.generate seed).branches.getD i default).is_secondary = true →
        ∃ j, ((PlantStructure.generate seed).branches.getD i default).parent_index =
            some j ∧ j < i ∧
          j < (PlantStructure.generate seed).branches.length ∧
          ((PlantStructure.generate seed).branches.getD j default).is_secondary =
            false) := by
  intro seed i hi
  simp only [PlantStructure.generate] at hi ⊢
  have hmh : 12 ≤ maxHeightOf (phenotypeOf ((SimpleRng.new seed).next).1)
      ((((SimpleRng.new seed).next).2.next)).1 := maxHeightOf_ge _ _
  refine branches_append_invariant _ _ _
    (genPrimaryBranches_facts _ _ hmh _ _) (genSecondaryBranches_facts _ _ hmh ?_ _ _) i hi
  rw [genPrimaryBranches_length]
  exact numPrimaryOf_pos _ _

/-- Witness for C9 at seed 4, branch index 0. -/
theorem C9_branch_invariants_witness :
    (1 ≤ ((PlantStructure.generate 4).branches.getD 0 default).level ∧
      ((PlantStructure.generate 4).branches.getD 0 default).level <
        (PlantStructure.generate 4).max_height) ∧
    (((PlantStructure.generate 4).branches.getD 0 default).is_secondary = true →
      ∃ j, ((PlantStructure.generate 4).branches.getD 0 default).parent_index =
          some j ∧ j < 0 ∧
        j < (PlantStructure.generate 4).branches.length ∧
        ((PlantStructure.generate 4).branches.getD j default).is_secondary =
          false) :=
  C9_branch_invariants 4 0 (by
    simp only [PlantStructure.generate]
    rw [List.length_append, genPrimaryBranches_length]
    have := numPrimaryOf_pos (phenotypeOf ((SimpleRng.new 4).next).1)
      ((((SimpleRng.new 4).next).2.next).2.next).1
    omega)

/-! ## Claims C5 and C6: renderer grid shape and soil invariance -/

/-- Folding a step that preserves an invariant preserves it. -/
theorem foldl_inv {σ α : Type} (Q : σ → Prop) (f : σ → α → σ)
    (hf : ∀ s a, Q s → Q (f s a)) :
    ∀ (l : List α) (s : σ), Q s → Q (l.foldl f s) := by
  intro l
  induction l with
  | nil => exact fun s hs => hs
  | cons a l ih => exact fun s hs => ih _ (hf s a hs)

/-- The initial buffer is 28×70. -/
theorem initGrid_shape : ShapeOK initGrid := by
  constructor
  · rfl
  · intro r hr
    rw [List.eq_of_mem_replicate hr]
    exact List.length_replicate _ _

/-- A guarded cell write preserves the buffer shape. -/
theorem paintAt_shape (g : Grid) (y x : Int) (c : Char) (h : ShapeOK g) :
    ShapeOK (paintAt g y x c) := by
  unfold paintAt
  split_ifs with hb
  · refine ⟨by rw [List.length_set]; exact h.1, ?_⟩
    intro r hr
    rcases List.mem_or_eq_of_mem_set hr with hmem | heq
    · exact h.2 r hmem
    · rw [heq, List.length_set]
      have hy : y.toNat < g.length := by rw [h.1]; omega
      apply h.2
      rw [List.getD_eq_getElem _ _ hy]
      exact List.getElem_mem hy
  · exact h

/-- A first-writer-wins write preserves the buffer shape. -/
theorem paintIfEmpty_shape (g : Grid) (y x : Int) (c : Char) (h : ShapeOK g) :
    ShapeOK (paintIfEmpty g y x c) := by
  unfold paintIfEmpty
  split_ifs
  · exact paintAt_shape g y x c h
  · exact h

/-- The split-arm pass preserves the buffer shape. -/
theorem drawSplitArms_shape (tc : Char) (left right : Int) (rows : List Nat)
    (g : Grid) (h : ShapeOK g) : ShapeOK (drawSplitArms tc left right rows g) := by
  unfold drawSplitArms
  refine foldl_inv ShapeOK _ ?_ rows g h
  intro g2 ul hg2
  try dsimp only
  split_ifs <;>
    first
      | exact paintAt_shape _ _ _ _ (paintAt_shape _ _ _ _ hg2)
      | exact paintAt_shape _ _ _ _ hg2
      | exact hg2

/-- One trunk level preserves the buffer shape. -/
theorem trunkStep_shape (splits : List TrunkSplit) (tc : Char) (ts : Nat)
    (acc : Grid × Bool × Nat) (level : Nat) (h : ShapeOK acc.1) :
    ShapeOK (trunkStep splits tc ts acc level).1 := by
  unfold trunkStep
  split
  · dsimp only
    split_ifs <;>
      (try exact h) <;>
      · repeat
          first
            | exact h
            | apply drawSplitArms_shape
            | apply paintAt_shape
  · dsimp only
    split_ifs
    · exact paintAt_shape _ _ _ _ h
    · exact h

/-- The branch-segment loop preserves the buffer shape. -/
theorem drawSegs_shape (b : Branch) (lv li : Nat) (sf : Bool)
    (fc : List Char) (fol : ℚ) :
    ∀ (fuel i : Nat) (g : Grid), ShapeOK g →
      ShapeOK (drawSegs b lv li sf fc fol fuel i g) := by
  intro fuel
  induction fuel with
  | zero => exact fun i g h => h
  | succ fuel ih =>
    intro i g h
    simp only [drawSegs]
    split_ifs
    · exact h
    · exact h
    · exact ih _ _ (paintIfEmpty_shape _ _ _ _ h)

/-- The foliage sprinkle preserves the buffer shape. -/
theorem sprinkleFoliage_shape (b : Branch) (lv li : Nat) (sf : Bool)
    (fol : ℚ) (g : Grid) (h : ShapeOK g) :
    ShapeOK (sprinkleFoliage b lv li sf fol g) := by
  unfold sprinkleFoliage
  refine foldl_inv ShapeOK _ ?_ _ g h
  intro g2 off hg2
  try dsimp only
  split_ifs <;> first | exact paintAt_shape _ _ _ _ hg2 | exact hg2

/-- The branch bifurcation preserves the buffer shape. -/
theorem drawBifurcation_shape (b : Branch) (lv li : Nat) (sf : Bool)
    (fc : List Char) (g : Grid) (h : ShapeOK g) :
    ShapeOK (drawBifurcation b lv li sf fc g) := by
  unfold drawBifurcation
  refine foldl_inv ShapeOK _ ?_ _ g h
  intro g2 sd hg2
  refine foldl_inv ShapeOK _ ?_ _ g2 hg2
  intro g3 i hg3
  try dsimp only
  split_ifs <;> first | exact paintAt_shape _ _ _ _ hg3 | exact hg3

/-- The branch drawing pass preserves the buffer shape. -/
theorem branchDraw_shape (day : Nat) (sf : Bool) (fc : List Char)
    (fol : ℚ) (bl : Branch → Nat → ℚ) (g : Grid) (b : Branch) (lv : Nat)
    (hg : ShapeOK g) : ShapeOK (branchDraw day sf fc fol bl g b lv) := by
  simp only [branchDraw]
  split_ifs
  · exact hg
  · exact drawBifurcation_shape _ _ _ _ _ _
      (sprinkleFoliage_shape _ _ _ _ _ _ (drawSegs_shape _ _ _ _ _ _ _ _ _ hg))
  · exact drawBifurcation_shape _ _ _ _ _ _ (drawSegs_shape _ _ _ _ _ _ _ _ _ hg)
  · exact sprinkleFoliage_shape _ _ _ _ _ _ (drawSegs_shape _ _ _ _ _ _ _ _ _ hg)
  · exact drawSegs_shape _ _ _ _ _ _ _ _ _ hg

/-- One visible branch preserves the buffer shape. -/
theorem branchStep_shape (day h : Nat) (sf : Bool) (fc : List Char)
    (fol : ℚ) (bl : Branch → Nat → ℚ) (g : Grid) (b : Branch)
    (hg : ShapeOK g) : ShapeOK (branchStep day h sf fc fol bl g b) := by
  simp only [branchStep]
  split_ifs <;>
    first
      | exact hg
      | exact branchDraw_shape _ _ _ _ _ _ _ _ hg

/-- The soil pass preserves the buffer shape. -/
theorem drawSoil_shape (g : Grid) (h : ShapeOK g) : ShapeOK (drawSoil g) := by
  unfold drawSoil
  refine foldl_inv ShapeOK _ ?_ _ g h
  intro g2 ic hg2
  try dsimp only
  split_ifs
  · exact paintAt_shape _ _ _ _ hg2
  · exact hg2

/-- The grid is 28×70 after every painting pass. -/
theorem renderCore_shape (day : Nat) (s : PlantStructure) (frame : Nat)
    (sf : Bool) (fc : List Char) (stage : GrowthStage)
    (bl : Branch → Nat → ℚ) :
    ShapeOK (renderCore day s frame sf fc stage bl) := by
  unfold renderCore
  apply drawSoil_shape
  refine foldl_inv ShapeOK _ (fun g b hg => branchStep_shape _ _ _ _ _ _ g b hg) _ _ ?_
  exact foldl_inv (fun st : Grid × Bool × Nat => ShapeOK st.1) _
    (fun st lv hst => trunkStep_shape _ _ _ st lv hst) _ _ initGrid_shape

/-- Padded rows have exactly 70 characters. -/
theorem padRow_length (r : List Char) : (padRow r).length = 70 := by
  unfold padRow
  try dsimp only
  rw [List.length_append, List.length_replicate, List.length_take]
  omega

/-- Padding a 70-character row is the identity. -/
theorem padRow_eq_self (r : List Char) (h : r.length = 70) : padRow r = r := by
  unfold padRow
  try dsimp only
  rw [List.take_of_length_le (by omega), h]
  simp

/-- **C5.** For every structure, day, stage, animation frame, show-flowers
flag, flower glyph — and every branch-length oracle standing for the f32
sigmoid — the renderer is total and returns a grid of exactly 28 rows,
each exactly 70 characters long (out-of-range writes are dropped by the
guarded cell writes, never failing). -/
theorem C5_grid_shape :
    ∀ (day : Nat) (s : PlantStructure) (frame : Nat) (sf : Bool)
      (fc : List Char) (stage : GrowthStage) (bl : Branch → Nat → ℚ),
      (renderPlantStructure day s frame sf fc stage bl).map List.length =
        List.replicate 28 70 := by
  intro day s frame sf fc stage bl
  unfold renderPlantStructure
  rw [List.map_map,
    show (List.length ∘ padRow) = (fun _ : List Char => (70 : Nat)) from
      funext fun r => padRow_length r,
    List.map_const', (renderCore_shape day s frame sf fc stage bl).1]

/-- Reading row `n` of a shaped grid gives a 70-character row. -/
theorem shape_row_length (g : Grid) (hg : ShapeOK g) (n : Nat) (hn : n < 28) :
    (List.getD g n []).length = 70 := by
  have h : n < g.length := by rw [hg.1]; omega
  rw [List.getD_eq_getElem _ _ h]
  exact hg.2 _ (List.getElem_mem h)

/-- Setting an in-range entry is read back. -/
theorem getD_set_self (l : List (List Char)) (n : Nat) (v : List Char)
    (h : n < l.length) : (l.set n v).getD n [] = v := by
  rw [List.getD_eq_getElem?_getD, List.getElem?_set_eq_of_lt v h, Option.getD_some]

/-- Setting an in-range character is read back. -/
theorem getD_set_self_col (r : List Char) (c : Nat) (ch : Char)
    (h : c < r.length) : (r.set c ch).getD c ' ' = ch := by
  rw [List.getD_eq_getElem?_getD, List.getElem?_set_eq_of_lt ch h, Option.getD_some]

/-- Setting one character leaves the others unchanged. -/
theorem getD_set_ne_col (r : List Char) (i c : Nat) (ch : Char) (h : i ≠ c) :
    (r.set i ch).getD c ' ' = r.getD c ' ' := by
  rw [List.getD_eq_getElem?_getD, List.getElem?_set_ne h, ← List.getD_eq_getElem?_getD]

/-- A row-27 write at a different column does not change the read cell. -/
theorem paintAt_cell_ne (g : Grid) (x : Int) (ch : Char) (c : Nat)
    (hne : x.toNat ≠ c) :
    (List.getD (paintAt g 27 x ch) 27 []).getD c ' ' =
      (List.getD g 27 []).getD c ' ' := by
  unfold paintAt
  split_ifs with hb
  · rw [show (27 : Int).toNat = 27 from rfl]
    by_cases h27 : 27 < g.length
    · rw [getD_set_self _ _ _ h27]
      exact getD_set_ne_col _ _ _ _ hne
    · rw [List.set_eq_of_length_le (by omega)]
  · rfl

/-- An in-range row-27 write replaces the read row by the written one. -/
theorem paintAt_row (g : Grid) (x : Int) (ch : Char) (hg : g.length = 28)
    (h0 : 0 ≤ x) (h70 : x < 70) :
    List.getD (paintAt g 27 x ch) 27 [] = (List.getD g 27 []).set x.toNat ch := by
  unfold paintAt
  rw [if_pos ⟨by norm_num, by norm_num, h0, h70⟩]
  rw [show (27 : Int).toNat = 27 from rfl]
  exact getD_set_self _ _ _ (by omega)

/-- The soil fold leaves untargeted columns unchanged. -/
theorem soilFold_cell_ne (c : Nat) :
    ∀ (ps : List (Nat × Char)) (g : Grid), (∀ p ∈ ps, 16 + p.1 ≠ c) →
      (List.getD (ps.foldl (fun g2 ic =>
          if 16 + ic.1 < 70 then paintAt g2 27 ((16 + ic.1 : Nat) : Int) ic.2
          else g2) g) 27 []).getD c ' ' =
        (List.getD g 27 []).getD c ' ' := by
  intro ps
  induction ps with
  | nil => intro g _; rfl
  | cons p ps ih =>
    intro g hc
    rw [List.foldl_cons, ih _ (fun q hq => hc q (List.mem_cons_of_mem _ hq))]
    try dsimp only
    split_ifs with hp
    · exact paintAt_cell_ne _ _ _ _ (by simpa using hc p (List.mem_cons_self _ _))
    · rfl

/-- The soil fold writes `~` at every targeted in-range column. -/
theorem soilFold_cell_mem (c : Nat) (hc : c < 70) :
    ∀ (ps : List (Nat × Char)) (g : Grid), ShapeOK g →
      (∃ p ∈ ps, 16 + p.1 = c) → (∀ p ∈ ps, p.2 = '~') →
      (List.getD (ps.foldl (fun g2 ic =>
          if 16 + ic.1 < 70 then paintAt g2 27 ((16 + ic.1 : Nat) : Int) ic.2
          else g2) g) 27 []).getD c ' ' = '~' := by
  intro ps
  induction ps with
  | nil => intro g _ hex _; exact absurd hex (by simp)
  | cons p ps ih =>
    intro g hg hex hall
    rw [List.foldl_cons]
    have hstep : ShapeOK (if 16 + p.1 < 70 then
        paintAt g 27 ((16 + p.1 : Nat) : Int) p.2 else g) := by
      split_ifs
      · exact paintAt_shape _ _ _ _ hg
      · exact hg
    by_cases hmem : ∃ q ∈ ps, 16 + q.1 = c
    · exact ih _ hstep hmem (fun q hq => hall q (List.mem_cons_of_mem _ hq))
    · have hpc : 16 + p.1 = c := by
        rcases hex with ⟨q, hq, hqc⟩
        rcases List.mem_cons.mp hq with heq | hmem2
        · rw [← heq]; exact hqc
        · exact absurd ⟨q, hmem2, hqc⟩ hmem
      rw [soilFold_cell_ne c ps _ (fun q hq hqc => hmem ⟨q, hq, hqc⟩)]
      try dsimp only
      rw [if_pos (by omega : 16 + p.1 < 70)]
      rw [paintAt_row _ _ _ hg.1 (Int.natCast_nonneg _) (by
        push_cast
        omega)]
      rw [hall p (List.mem_cons_self _ _)]
      rw [show ((16 + p.1 : Nat) : Int).toNat = c by simp [hpc]]
      exact getD_set_self_col _ _ _ (by
        rw [shape_row_length g hg 27 (by norm_num)]
        omega)

/-- Row 27, columns 16–53 of the grid carry the soil glyph after the soil
pass. -/
theorem drawSoil_row (g : Grid) (hg : ShapeOK g) (c : Nat)
    (h16 : 16 ≤ c) (h53 : c ≤ 53) :
    (List.getD (drawSoil g) 27 []).getD c ' ' = '~' := by
  unfold drawSoil
  have henum : soilLine.enum = (List.range 38).map (fun i => (i, '~')) := by decide
  apply soilFold_cell_mem c (by omega) _ g hg
  · refine ⟨(c - 16, '~'), ?_, by omega⟩
    rw [henum, List.mem_map]
    exact ⟨c - 16, by rw [List.mem_range]; omega, rfl⟩
  · intro p hp
    rw [henum] at hp
    rcases List.mem_map.mp hp with ⟨i, _, heq⟩
    rw [← heq]

/-- **C6.** In every rendered grid — for every structure, day, stage,
frame, flag, glyph and branch-length oracle — row 27 carries the soil
glyph `~` at every column from 16 through 53: the soil run is painted
last and overwrites any trunk or branch glyph at those cells. -/
theorem C6_soil_row :
    ∀ (day : Nat) (s : PlantStructure) (frame : Nat) (sf : Bool)
      (fc : List Char) (stage : GrowthStage) (bl : Branch → Nat → ℚ)
      (c : Nat), 16 ≤ c → c ≤ 53 →
      (List.getD (renderPlantStructure day s frame sf fc stage bl) 27 []).getD
        c ' ' = '~' := by
  intro day s frame sf fc stage bl c h16 h53
  unfold renderPlantStructure
  have hcore := renderCore_shape day s frame sf fc stage bl
  have h27 : 27 < (renderCore day s frame sf fc stage bl).length := by
    rw [hcore.1]; omega
  have hrow : List.getD ((renderCore day s frame sf fc stage bl).map padRow) 27 [] =
      padRow (List.getD (renderCore day s frame sf fc stage bl) 27 []) := by
    rw [List.getD_eq_getElem?_getD, List.getElem?_map,
      List.getD_eq_getElem?_getD, List.getElem?_eq_getElem h27]
    rfl
  rw [hrow, padRow_eq_self _ (shape_row_length _ hcore 27 (by norm_num))]
  unfold renderCore
  apply drawSoil_row
  · refine foldl_inv ShapeOK _ (fun g b hg => branchStep_shape _ _ _ _ _ _ g b hg) _ _ ?_
    exact foldl_inv (fun st : Grid × Bool × Nat => ShapeOK st.1) _
      (fun st lv hst => trunkStep_shape _ _ _ st lv hst) _ _ initGrid_shape
  · exact h16
  · exact h53

/-- Witness for C6: a rendered empty structure at day 0 has soil at row
27, column 20. -/
theorem C6_soil_row_witness :
    (List.getD (renderPlantStructure 0 ⟨[], 0, .Tall, 0, 0, [], 0, 0⟩ 0 false []
      .Seedling (fun _ _ => 0)) 27 []).getD 20 ' ' = '~' :=
  C6_soil_row 0 ⟨[], 0, .Tall, 0, 0, [], 0, 0⟩ 0 false [] .Seedling
    (fun _ _ => 0) 20 (by norm_num) (by norm_num)

end GanjaTui
